import Mathlib

/-!
Shallow embedding of the PaperBanana Pro Streamlit application (src/app.py).

Session state is the per-browser key/value store mutated by the auth handlers and
read by the module-level view routing. Machine-level concerns (Streamlit reruns,
the Stripe network client, the diagram pipeline) appear as explicit parameters:
provider behaviour is passed in as a function, and the routing, auth, logout,
subscription-check and checkout-session logic is translated directly from the
source lines cited in each definition.
-/

/-- Python truthiness of an optional string: None and the empty string are falsy. -/
def pyTruthyStr : Option String → Bool
  | none => false
  | some s => if s = "" then false else true

/-- Python `x or dflt` for an optional string `x`: falls back when x is None or empty. -/
def pyOrStr (v : Option String) (dflt : String) : String :=
  match v with
  | none => dflt
  | some s => if s = "" then dflt else s

/-- Python str.lower() as used on submitted emails: lowercases every character. -/
def pyLower (s : String) : String := String.mk (s.data.map Char.toLower)

/-- The session-state fields the application uses (src/app.py lines 50-63 set up the
first five; checkout_plan is created on demand by the landing-page subscribe buttons,
lines 242-244 and 257-259). -/
structure Session where
  user_id : Option String
  user_email : Option String
  is_subscribed : Bool
  subscription_plan : Option String
  subscription_valid_until : Option String
  checkout_plan : Option String
  deriving DecidableEq, Repr

/-- The session as it stands after init_session_state on a fresh session:
all identity and subscription fields unset, no pending checkout plan. -/
def initSession : Session :=
  { user_id := none, user_email := none, is_subscribed := false,
    subscription_plan := none, subscription_valid_until := none, checkout_plan := none }

/-- src/app.py lines 106-115: authenticate_user(email) sets user_id to the lowercased
email and user_email to the email as submitted, then returns True. There is no
syntactic validation of any kind in the function body. -/
def authenticate_user (s : Session) (email : String) : Session × Bool :=
  ({ s with user_id := some (pyLower email), user_email := some email }, true)

/-- src/app.py lines 196-203: the email login button handler. It guards only on the
email being non-empty (Python truthiness of the text input); on success it calls
authenticate_user and then sets is_subscribed to False directly. The Bool result
records whether the login was accepted (True) or an error message shown (False). -/
def email_login_handler (s : Session) (email : String) : Session × Bool :=
  if email = "" then (s, false)
  else
    let s1 := (authenticate_user s email).1
    ({ s1 with is_subscribed := false }, true)

/-- src/app.py lines 117-123: logout sets user_id, user_email, subscription_plan and
subscription_valid_until to None and is_subscribed to False. It does not touch
checkout_plan. -/
def logout (s : Session) : Session :=
  { s with user_id := none, user_email := none, is_subscribed := false,
           subscription_plan := none, subscription_valid_until := none }

/-- src/app.py lines 242-244 and 257-259: a landing-page subscribe button stores the
chosen plan id in session state. -/
def subscribe_button (s : Session) (plan : String) : Session :=
  { s with checkout_plan := some plan }

/-- The three top-level views of the page. -/
inductive View where
  | Landing
  | Paywall
  | Workspace
  deriving DecidableEq, Repr

/-- src/app.py lines 216-323: the module-level view routing. Python evaluates
`if not st.session_state.user_id` (truthiness), `elif not st.session_state.is_subscribed`,
`else` for the workspace. -/
def route (s : Session) : View :=
  if !(pyTruthyStr s.user_id) then View.Landing
  else if !s.is_subscribed then View.Paywall
  else View.Workspace

/-- The nickname field of a Stripe plan object, as read by check_subscription_status. -/
structure StripePlan where
  nickname : Option String
  deriving DecidableEq, Repr

/-- A Stripe subscription object as read by check_subscription_status: its status
string and its plan. -/
structure StripeSubscription where
  status : String
  plan : StripePlan
  deriving DecidableEq, Repr

/-- src/app.py lines 92-104: check_subscription_status. The provider call
stripe.Subscription.list(customer, limit=1) is modelled by its outcome: an error
(any raised exception) or the returned data list. If the list is non-empty and the
first subscription has status exactly "active", returns (True, nickname or "Pro");
in every other case, including the except branch, returns (False, None). -/
def check_subscription_status (lookup : Except String (List StripeSubscription)) :
    Bool × Option String :=
  match lookup with
  | Except.error _ => (false, none)
  | Except.ok [] => (false, none)
  | Except.ok (sub :: _) =>
      if sub.status = "active" then (true, some (pyOrStr sub.plan.nickname "Pro"))
      else (false, none)

/-- A catalog entry of STRIPE_PRODUCTS (src/app.py lines 19-32). The price_id comes
from secrets or environment and may be absent (None). The numeric price field is a
Python float and is not needed by any claim, so it is omitted here. -/
structure StripeProduct where
  price_id : Option String
  name : String
  period : String
  deriving DecidableEq, Repr

/-- src/app.py lines 19-32: the STRIPE_PRODUCTS dict, parameterised by the
configuration lookup (secrets / environment). Only "pro" and "enterprise" exist. -/
def STRIPE_PRODUCTS (cfg : String → Option String) (plan : String) : Option StripeProduct :=
  if plan = "pro" then
    some { price_id := cfg "STRIPE_PRICE_PRO", name := "PaperBanana Pro", period := "month" }
  else if plan = "enterprise" then
    some { price_id := cfg "STRIPE_PRICE_ENTERPRISE", name := "PaperBanana Enterprise",
           period := "month" }
  else none

/-- The two kinds of exception the checkout-session code distinguishes
(src/app.py lines 85-90): stripe.error.CardError and any other exception. -/
inductive StripeError where
  | cardError (user_message : String)
  | otherError (message : String)
  deriving DecidableEq, Repr

/-- The checkout session object returned by the provider; the code only reads url. -/
structure CheckoutSession where
  url : String
  deriving DecidableEq, Repr

/-- The request the code sends to stripe.checkout.Session.create (src/app.py
lines 71-83): the price id as given, mode "subscription", and the customer email
when the session user_email is truthy. -/
structure CheckoutRequest where
  price_id : Option String
  mode : String
  customer_email : Option String
  deriving DecidableEq, Repr

/-- Builds the provider request exactly as src/app.py lines 71-83 do. -/
def checkoutRequest (price_id : Option String) (user_email : Option String) : CheckoutRequest :=
  { price_id := price_id, mode := "subscription",
    customer_email := if pyTruthyStr user_email then user_email else none }

/-- src/app.py lines 68-90: create_stripe_checkout_session(price_id, plan_name).
The body performs no catalog or price-id precheck: it always issues the provider
call (first component True records that the call was issued), returns the session
on success, and on CardError or any other exception shows an error and returns
None. plan_name is accepted but unused, as in the source. -/
def create_stripe_checkout_session (provider : CheckoutRequest → Except StripeError CheckoutSession)
    (price_id : Option String) (plan_name : String) (user_email : Option String) :
    Bool × Option CheckoutSession :=
  (true,
    match provider (checkoutRequest price_id user_email) with
    | Except.ok session => some session
    | Except.error _ => none)

/-- src/app.py line 369: the generate button guard `if method_text and title and caption`,
Python truthiness of the three strings (no trimming). -/
def generate_guard (method_text title caption : String) : Bool :=
  if method_text = "" then false
  else if title = "" then false
  else if caption = "" then false
  else true

/-- Outcome of the external pipeline call. -/
inductive PipelineResult where
  | ok (image_path : String)
  | error (message : String)
  deriving DecidableEq, Repr

/-- Filesystem state relevant to one generation call: whether the temp input file
written by tempfile.NamedTemporaryFile(delete=False) currently exists. -/
structure GenFs where
  tempExists : Bool
  deriving DecidableEq, Repr

/-- Modelled from the spec: src/app.py is truncated at line 383, inside the generate
button handler, so the tail of the handler (the awaited pipeline call and the temp
file cleanup) is missing from src/. Spec section 5 records the source pattern:
the temp input file is written with delete=False and deleted only after a successful
call, so a failed call leaves it behind. The handler writes the method text to the
temp file, runs the pipeline on its content, and unlinks the file only on success. -/
def generate_call (fs : GenFs) (method_text : String)
    (pipeline : String → PipelineResult) : GenFs × Option String :=
  let fs1 : GenFs := { fs with tempExists := true }
  match pipeline method_text with
  | PipelineResult.ok image_path => ({ fs1 with tempExists := false }, some image_path)
  | PipelineResult.error _ => (fs1, none)

/-- src/app.py lines 368-383 plus the spec-modelled tail: the generate button handler.
The last component records whether an external pipeline call was issued; when the
guard fails no temp file is created and no call is issued. -/
def generate_button_handler (fs : GenFs) (method_text title caption : String)
    (pipeline : String → PipelineResult) : GenFs × Option String × Bool :=
  if generate_guard method_text title caption then
    let r := generate_call fs method_text pipeline
    (r.1, r.2, true)
  else
    (fs, none, false)

/-- A pipeline stub that always succeeds. -/
def pipelineOkStub : String → PipelineResult :=
  fun _ => PipelineResult.ok "outputs/diagram.png"

/-- A pipeline stub that always fails. -/
def pipelineFailStub : String → PipelineResult :=
  fun _ => PipelineResult.error "PipelineError"

/-- A provider stub behaving as Stripe does when the price parameter is missing:
the call is made and the provider rejects it. -/
def stripeMissingPrice : CheckoutRequest → Except StripeError CheckoutSession :=
  fun _ => Except.error (StripeError.otherError "Missing required param: price")

/-- A provider stub that accepts the request and returns a hosted checkout URL. -/
def stripeOkStub : CheckoutRequest → Except StripeError CheckoutSession :=
  fun _ => Except.ok { url := "https://checkout.stripe.com/pay/cs_test_123" }

/-- A Python value stored in the session-state dict. -/
inductive PyVal where
  | vNone
  | vBool (b : Bool)
  | vStr (s : String)
  deriving DecidableEq, Repr

/-- The raw st.session_state key/value store: None means the key is absent. -/
def SessionDict : Type := String → Option PyVal

/-- Assignment st.session_state[k] = v. -/
def dictSet (d : SessionDict) (k : String) (v : PyVal) : SessionDict :=
  fun q => if q = k then some v else d q

/-- One step of init_session_state: `if k not in st.session_state: st.session_state[k] = v`. -/
def initKey (d : SessionDict) (k : String) (v : PyVal) : SessionDict :=
  match d k with
  | some _ => d
  | none => dictSet d k v

/-- src/app.py lines 50-63: init_session_state sets each of the five keys to its
default only when the key is absent, in source order. -/
def init_session_state (d : SessionDict) : SessionDict :=
  initKey (initKey (initKey (initKey (initKey d "user_id" PyVal.vNone)
    "user_email" PyVal.vNone) "is_subscribed" (PyVal.vBool false))
    "subscription_plan" PyVal.vNone) "subscription_valid_until" PyVal.vNone

/-- A sample raw session dict holding one key, for concrete evaluation. -/
def demoDict : SessionDict := dictSet (fun _ => none) "user_id" (PyVal.vStr "a@b.ch")

/-- initKey never changes a key that is already bound. -/
theorem initKey_preserves (d : SessionDict) (key : String) (dv : PyVal)
    (q : String) (w : PyVal) (h : d q = some w) : initKey d key dv q = some w := by
  unfold initKey
  cases hk : d key with
  | some x => exact h
  | none =>
      show (if q = key then some dv else d q) = some w
      by_cases hq : q = key
      · rw [hq] at h; rw [hk] at h; exact absurd h (by simp)
      · simp [hq, h]

/-- C1: for every session state whose user_id is not the empty string (the only
identities the code ever stores are None or a non-empty lowercased email), the
module-level routing renders exactly one of the three views, determined solely by
the session: Landing iff no identity is set, Paywall iff an identity is set and
is_subscribed is false, Workspace iff an identity is set and is_subscribed is true. -/
theorem C1_view_router (s : Session) (h : s.user_id ≠ some "") :
    (route s = View.Landing ↔ s.user_id = none) ∧
    (route s = View.Paywall ↔ s.user_id ≠ none ∧ s.is_subscribed = false) ∧
    (route s = View.Workspace ↔ s.user_id ≠ none ∧ s.is_subscribed = true) := by
  cases hu : s.user_id with
  | none => cases hs : s.is_subscribed <;> simp [route, pyTruthyStr, hu, hs]
  | some e =>
      have he : ¬(e = "") := by
        intro h0
        exact h (by rw [hu, h0])
      cases hs : s.is_subscribed <;> simp [route, pyTruthyStr, hu, he, hs]

/-- Witness for C1: a logged-in, unsubscribed session routes to Paywall. -/
theorem C1_view_router_witness :
    route { user_id := some "a@b.ch", user_email := some "a@b.ch", is_subscribed := false,
            subscription_plan := none, subscription_valid_until := none,
            checkout_plan := none } = View.Paywall :=
  ((C1_view_router
    { user_id := some "a@b.ch", user_email := some "a@b.ch", is_subscribed := false,
      subscription_plan := none, subscription_valid_until := none, checkout_plan := none }
    (by decide)).2.1).mpr ⟨by decide, rfl⟩

/-- C2: the subscription check reports active exactly when the provider lookup
succeeded, returned at least one subscription, and the first (most recent) one has
status exactly "active"; in particular any lookup error yields active = false,
never granting access on error. -/
theorem C2_check_subscription (lookup : Except String (List StripeSubscription)) :
    ((check_subscription_status lookup).1 = true ↔
        ∃ sub rest, lookup = Except.ok (sub :: rest) ∧ sub.status = "active") ∧
    (∀ e, lookup = Except.error e → (check_subscription_status lookup).1 = false) := by
  constructor
  · constructor
    · intro h1
      match lookup with
      | Except.error e => simp [check_subscription_status] at h1
      | Except.ok [] => simp [check_subscription_status] at h1
      | Except.ok (sub :: rest) =>
          by_cases hst : sub.status = "active"
          · exact ⟨sub, rest, rfl, hst⟩
          · simp [check_subscription_status, hst] at h1
    · rintro ⟨sub, rest, h1, h2⟩
      subst h1
      simp [check_subscription_status, h2]
  · intro e h1
    subst h1
    rfl

/-- Witness for C2: a raised provider error yields active = false, and a returned
active subscription yields active = true. -/
theorem C2_check_subscription_witness :
    (check_subscription_status (Except.error "Stripe API error")).1 = false ∧
    (check_subscription_status (Except.ok [{ status := "active", plan := { nickname := none } }])).1 = true :=
  ⟨(C2_check_subscription (Except.error "Stripe API error")).2 "Stripe API error" rfl,
   (C2_check_subscription (Except.ok [{ status := "active", plan := { nickname := none } }])).1.mpr
     ⟨{ status := "active", plan := { nickname := none } }, [], rfl, rfl⟩⟩

/-- C3 counterexample: the input "not-an-email" contains no "@" character, yet the
login handler accepts it and changes the session state, so the claim that such
inputs fail with InvalidEmail and leave the state unchanged is false. -/
theorem C3_no_at_check_counterexample :
    ('@' ∉ "not-an-email".data) ∧
    (email_login_handler initSession "not-an-email").2 = true ∧
    (email_login_handler initSession "not-an-email").1 ≠ initSession := by
  refine ⟨by decide, by decide, ?_⟩
  intro h1
  have h2 := congrArg Session.user_id h1
  simp [email_login_handler, authenticate_user, initSession] at h2

/-- C3 (amended): the code performs no syntactic email validation at all. Every
non-empty input, including inputs without "@", is accepted: user_id and user_email
are set and the handler succeeds. Only an empty input is rejected, with an error
message and the session state unchanged. -/
theorem C3_amended_no_validation (s : Session) (email : String) :
    (email ≠ "" →
      (email_login_handler s email).2 = true ∧
      (email_login_handler s email).1.user_id = some (pyLower email) ∧
      (email_login_handler s email).1.user_email = some email) ∧
    (email = "" → email_login_handler s email = (s, false)) := by
  constructor
  · intro h1
    simp [email_login_handler, authenticate_user, h1]
  · intro h1
    simp [email_login_handler, h1]

/-- Witness for C3 (amended): a concrete address-free input is accepted; the empty
input is rejected with the state unchanged. -/
theorem C3_amended_witness :
    (email_login_handler initSession "nota.email").2 = true ∧
    email_login_handler initSession "" = (initSession, false) :=
  ⟨((C3_amended_no_validation initSession "nota.email").1 (by decide)).1,
   (C3_amended_no_validation initSession "").2 rfl⟩

/-- C4 counterexample: the login handler accepts "a@b.ch" but stores is_subscribed
= false unconditionally, even though the billing lookup for a customer with an
active subscription returns true — the lookup result is not stored (in fact the
lookup is never invoked by the handler). -/
theorem C4_no_billing_lookup_counterexample :
    (email_login_handler initSession "a@b.ch").2 = true ∧
    (email_login_handler initSession "a@b.ch").1.is_subscribed = false ∧
    (check_subscription_status
      (Except.ok [{ status := "active", plan := { nickname := some "Premium" } }])).1 = true := by
  exact ⟨by decide, by decide, rfl⟩

/-- C4 (amended): for every accepted (non-empty) email the handler sets user_email
to the submitted email and user_id to its lowercased form, returns success, and
sets is_subscribed to false unconditionally without invoking the billing lookup;
subscription_plan and subscription_valid_until are left unchanged. -/
theorem C4_amended_login_effect (s : Session) (email : String) (h : email ≠ "") :
    (email_login_handler s email).2 = true ∧
    (email_login_handler s email).1.user_email = some email ∧
    (email_login_handler s email).1.user_id = some (pyLower email) ∧
    (email_login_handler s email).1.is_subscribed = false ∧
    (email_login_handler s email).1.subscription_plan = s.subscription_plan ∧
    (email_login_handler s email).1.subscription_valid_until = s.subscription_valid_until := by
  simp [email_login_handler, authenticate_user, h]

/-- Witness for C4 (amended): logging in with "A@B.ch" stores the lowercased id
and a false subscription flag. -/
theorem C4_amended_witness :
    (email_login_handler initSession "A@B.ch").1.user_id = some "a@b.ch" ∧
    (email_login_handler initSession "A@B.ch").1.is_subscribed = false :=
  ⟨((C4_amended_login_effect initSession "A@B.ch" (by decide)).2.2.1).trans (by decide),
   (C4_amended_login_effect initSession "A@B.ch" (by decide)).2.2.2.1⟩

/-- C5 counterexample: a whitespace-only method text is empty after trimming, yet
it passes the truthiness guard and an external pipeline call is issued, so the
claim that inputs empty after trimming fail before any external call is false. -/
theorem C5_trim_counterexample :
    (" ".data.all Char.isWhitespace = true) ∧
    (generate_button_handler { tempExists := false } " " "Figure 1" "caption"
      pipelineOkStub).2.2 = true := by
  exact ⟨by decide, rfl⟩

/-- C5 (amended): the guard is Python truthiness, not trimmed emptiness: the
handler fails without issuing an external pipeline call exactly when method_text,
title, or caption is the empty string; whitespace-only inputs pass the guard. -/
theorem C5_amended_guard (method_text title caption : String)
    (pipeline : String → PipelineResult) (fs : GenFs) :
    ((generate_button_handler fs method_text title caption pipeline).2.2 = false ↔
      method_text = "" ∨ title = "" ∨ caption = "") := by
  unfold generate_button_handler generate_guard
  by_cases h1 : method_text = "" <;> by_cases h2 : title = "" <;> by_cases h3 : caption = "" <;>
    simp [h1, h2, h3]

/-- C6: at the failing input (a generation call whose pipeline call fails) the temp
input file is still present after the call completes, while on the success path it
is removed — the cleanup runs only after a successful call. -/
theorem C6_temp_leak_on_failure :
    (generate_button_handler { tempExists := false } "method text" "Figure 1" "caption"
      pipelineFailStub).1.tempExists = true ∧
    (generate_button_handler { tempExists := false } "method text" "Figure 1" "caption"
      pipelineOkStub).1.tempExists = false := by
  exact ⟨rfl, rfl⟩

/-- C7 counterexample: with no configuration, the catalog entry for "pro" has no
price id, yet create_stripe_checkout_session still issues the provider call with
the missing price and the failure is the generic exception handler returning None
— there is no PlanNotConfigured outcome. -/
theorem C7_no_precheck_counterexample :
    (STRIPE_PRODUCTS (fun _ => none) "pro"
      = some { price_id := none, name := "PaperBanana Pro", period := "month" }) ∧
    (create_stripe_checkout_session stripeMissingPrice none "pro" none).1 = true ∧
    (create_stripe_checkout_session stripeMissingPrice none "pro" none).2 = none := by
  exact ⟨rfl, rfl, rfl⟩

/-- C7 (amended): create_stripe_checkout_session performs no catalog or price-id
precheck: it always issues the provider call, even with an unconfigured (None)
price id; on a provider error it returns None (generic failure, no
PlanNotConfigured), and on success it returns the session. -/
theorem C7_amended_always_calls (provider : CheckoutRequest → Except StripeError CheckoutSession)
    (price_id : Option String) (plan_name : String) (user_email : Option String) :
    (create_stripe_checkout_session provider price_id plan_name user_email).1 = true ∧
    (∀ e, provider (checkoutRequest price_id user_email) = Except.error e →
      (create_stripe_checkout_session provider price_id plan_name user_email).2 = none) ∧
    (∀ cs, provider (checkoutRequest price_id user_email) = Except.ok cs →
      (create_stripe_checkout_session provider price_id plan_name user_email).2 = some cs) := by
  refine ⟨rfl, ?_, ?_⟩
  · intro e h1
    unfold create_stripe_checkout_session
    rw [h1]
  · intro cs h1
    unfold create_stripe_checkout_session
    rw [h1]

/-- Witness for C7 (amended): with a configured price id and an accepting provider
the call is issued and the checkout session with its URL is returned. -/
theorem C7_amended_witness :
    (create_stripe_checkout_session stripeOkStub (some "price_123") "enterprise"
      (some "a@b.ch")).1 = true ∧
    (create_stripe_checkout_session stripeOkStub (some "price_123") "enterprise"
      (some "a@b.ch")).2 = some { url := "https://checkout.stripe.com/pay/cs_test_123" } :=
  ⟨(C7_amended_always_calls stripeOkStub (some "price_123") "enterprise" (some "a@b.ch")).1,
   (C7_amended_always_calls stripeOkStub (some "price_123") "enterprise" (some "a@b.ch")).2.2
     { url := "https://checkout.stripe.com/pay/cs_test_123" } rfl⟩

/-- C8: logout unconditionally clears all identity and subscription fields, and is
idempotent: applying it twice yields exactly the state of applying it once. -/
theorem C8_logout_idempotent (s : Session) :
    (logout s).user_id = none ∧ (logout s).user_email = none ∧
    (logout s).is_subscribed = false ∧ (logout s).subscription_plan = none ∧
    (logout s).subscription_valid_until = none ∧
    logout (logout s) = logout s :=
  ⟨rfl, rfl, rfl, rfl, rfl, rfl⟩

/-- C9: re-running init_session_state leaves every already-bound key unchanged,
and a stored value stays visible to reads of its key under writes to other keys. -/
theorem C9_init_preserves (d : SessionDict) (k : String) (v : PyVal) (h : d k = some v) :
    init_session_state d k = some v ∧
    (∀ k2 v2, k2 ≠ k → dictSet d k2 v2 k = some v) := by
  constructor
  · unfold init_session_state
    exact initKey_preserves _ _ _ _ _ (initKey_preserves _ _ _ _ _ (initKey_preserves _ _ _ _ _
      (initKey_preserves _ _ _ _ _ (initKey_preserves _ _ _ _ _ h))))
  · intro k2 v2 h2
    show (if k = k2 then some v2 else d k) = some v
    rw [if_neg (fun h3 => h2 h3.symm)]
    exact h

/-- Witness for C9: a stored user_id survives a re-run of init_session_state and a
write to a different key. -/
theorem C9_init_preserves_witness :
    init_session_state demoDict "user_id" = some (PyVal.vStr "a@b.ch") ∧
    dictSet demoDict "is_subscribed" (PyVal.vBool true) "user_id"
      = some (PyVal.vStr "a@b.ch") :=
  ⟨(C9_init_preserves demoDict "user_id" (PyVal.vStr "a@b.ch") rfl).1,
   (C9_init_preserves demoDict "user_id" (PyVal.vStr "a@b.ch") rfl).2 "is_subscribed"
     (PyVal.vBool true) (by decide)⟩

/-- C10: logout does not clear the pending checkout plan: whenever checkout_plan
was set, its value is unchanged by logout and survives into the logged-out state. -/
theorem C10_logout_keeps_checkout_plan (s : Session) (p : String)
    (h : s.checkout_plan = some p) : (logout s).checkout_plan = some p :=
  h

/-- Witness for C10: after the landing-page pro subscribe button and a logout, the
checkout plan is still "pro". -/
theorem C10_logout_keeps_checkout_plan_witness :
    (logout (subscribe_button initSession "pro")).checkout_plan = some "pro" :=
  C10_logout_keeps_checkout_plan (subscribe_button initSession "pro") "pro" rfl
